import Mathlib

/-!
Verification development for the Fiber ALB adapter
(`fiber/adapterALB.go` of aws-lambda-go-api-proxy).

The adapter receives an ALB target-group event, converts it (via the
library's core accessor) into a generic HTTP request, adapts that request
into the embedded engine's (fasthttp) request structure, invokes the
framework handler, and converts the captured response back into an ALB
target-group response.

Shallow embedding conventions:
  * Header maps are association lists `List (String × String)` in insertion
    order; fasthttp stores a few special headers (Host, Content-Length, ...)
    in dedicated fields, but observably they behave like ordinary entries of
    the header table, which is how we model them.
  * Fallible steps return `Except String`.
  * The framework handler and the event-to-request conversion of the core
    package (whose source is outside the adapter file) are parameters of the
    operations, as is the stdlib TCP-address resolver.
-/

namespace FiberALB

/-- The cloud load balancer's inbound event shape (ALBTargetGroupRequest):
method, path, query string, headers, body and the base64 flag. -/
structure ALBTargetGroupRequest where
  httpMethod : String
  path : String
  queryStringParameters : List (String × String)
  headers : List (String × String)
  multiValueHeaders : List (String × List String)
  body : String
  isBase64Encoded : Bool
deriving DecidableEq, Repr

/-- The cloud load balancer's outbound event shape (ALBTargetGroupResponse). -/
structure ALBTargetGroupResponse where
  statusCode : Nat
  statusDescription : String
  headers : List (String × String)
  body : String
  isBase64Encoded : Bool
deriving DecidableEq, Repr

deriving instance DecidableEq for Except

/-- The generic in-memory HTTP request (net/http Request) as consumed by the
adaptor: method, request URI, host, header map, textual remote address, and
a body reader that either yields the body bytes or fails. -/
structure HTTPRequest where
  method : String
  requestURI : String
  host : String
  header : List (String × List String)
  remoteAddr : String
  body : Except String String
deriving DecidableEq, Repr

/-- A resolved TCP address (net.TCPAddr). -/
structure TCPAddr where
  ip : String
  port : Nat
deriving DecidableEq, Repr

/-- The engine's (fasthttp) request structure as populated by the adaptor.
Special headers (Host, Content-Length) live in the header table; see the
module comment. -/
structure FasthttpRequest where
  method : String
  requestURI : String
  headers : List (String × String)
  body : String
deriving DecidableEq, Repr

/-- The engine's (fasthttp) response structure as read back by the adaptor. -/
structure FasthttpResponse where
  statusCode : Nat
  headers : List (String × String)
  body : String
deriving DecidableEq, Repr

/-- The framework handler: fed the populated engine request, produces the
engine response (fiber app.Handler() applied to the request context). -/
abbrev Handler := FasthttpRequest → FasthttpResponse

/-- The response-capture object (core.ProxyResponseWriterALB as seen through
http.ResponseWriter): accumulated headers, the written status code (none
until WriteHeader runs), and the accumulated body. -/
structure ResponseWriter where
  headers : List (String × String)
  status : Option Nat
  body : String
deriving DecidableEq, Repr

/-- Header().Set: replace every value stored under `k` with the single value
`v` (fasthttp / net/http Set semantics). -/
def headerSet (hs : List (String × String)) (k v : String) :
    List (String × String) :=
  (hs.filter (fun p => p.1 ≠ k)) ++ [(k, v)]

/-- Header().Del: drop every value stored under `k`. -/
def headerDel (hs : List (String × String)) (k : String) :
    List (String × String) :=
  hs.filter (fun p => p.1 ≠ k)

/-- Header().Add: append `v` to the values stored under `k`, preserving
existing values and their order. -/
def headerAdd (hs : List (String × String)) (k v : String) :
    List (String × String) :=
  hs ++ [(k, v)]

/-- The values stored under name `k`, in order. -/
def getVals (hs : List (String × String)) (k : String) : List String :=
  (hs.filter (fun p => p.1 = k)).map (fun p => p.2)

/-- The fixed override set of the adaptor's header-copy loop:
fiber.HeaderHost, HeaderContentType, HeaderUserAgent, HeaderContentLength,
HeaderConnection (net/http canonical spelling, matched case-sensitively). -/
def overrideSet : List String :=
  ["Host", "Content-Type", "User-Agent", "Content-Length", "Connection"]

/-- The inner loop of the header copy: for one generic-request header name
`k` with value list `vs`, each value is Set (override names) or Added
(all other names) into the engine request's header table, in order. -/
def addValues (hs : List (String × String)) (k : String) :
    List String → List (String × String)
  | [] => hs
  | v :: rest =>
      addValues
        (if k ∈ overrideSet then headerSet hs k v else headerAdd hs k v)
        k rest

/-- The outer loop of the header copy: every entry of the generic request's
header map is copied into the engine request's header table. -/
def copyHeaders (hs : List (String × String)) :
    List (String × List String) → List (String × String)
  | [] => hs
  | (k, vs) :: rest => copyHeaders (addValues hs k vs) rest

/-- Construction of the engine request from the generic request and its read
body bytes: SetContentLength(len(body)), body write, SetMethod,
SetRequestURI, SetHost, then the header-copy loop. -/
def buildEngineRequest (r : HTTPRequest) (body : String) : FasthttpRequest :=
  { method := r.method
    requestURI := r.requestURI
    body := body
    headers :=
      copyHeaders
        (headerSet (headerSet [] "Content-Length" (toString body.length))
          "Host" r.host)
        r.header }

/-- fiber utils.StatusMessage for the codes this development evaluates. -/
def statusMessage (code : Nat) : String :=
  if code = 200 then "OK"
  else if code = 500 then "Internal Server Error"
  else if code = 504 then "Gateway Timeout"
  else ""

/-- net/http http.Error: delete Content-Length, set Content-Type and
X-Content-Type-Options, WriteHeader(code), then write the message with a
trailing newline. -/
def httpError (w : ResponseWriter) (msg : String) (code : Nat) :
    ResponseWriter :=
  { headers :=
      headerSet
        (headerSet (headerDel w.headers "Content-Length") "Content-Type"
          "text/plain; charset=utf-8")
        "X-Content-Type-Options" "nosniff"
    status := some code
    body := w.body ++ msg ++ "\n" }

/-- The response copy-out at the end of the adaptor: VisitAll adds every
engine response header to the writer, then WriteHeader(status), then the
response body is written. -/
def writeEngineResponse (w : ResponseWriter) (resp : FasthttpResponse) :
    ResponseWriter :=
  { headers := resp.headers.foldl (fun hs p => headerAdd hs p.1 p.2) w.headers
    status := some resp.statusCode
    body := w.body ++ resp.body }

/-- A fresh response-capture object (core.NewProxyResponseWriterALB):
no headers, no status written, empty body. -/
def newProxyResponseWriterALB : ResponseWriter :=
  { headers := [], status := none, body := "" }

/-- Modelled from the spec: core.GatewayTimeoutALB, whose source is not in
the adapter file — the fixed gateway-timeout Outbound Event (HTTP 504). -/
def gatewayTimeoutALB : ALBTargetGroupResponse :=
  { statusCode := 504
    statusDescription := ""
    headers := []
    body := ""
    isBase64Encoded := false }

/-- Modelled from the spec: core.ProxyResponseWriterALB.GetProxyResponse,
whose source is not in the adapter file — extract the structured Outbound
Event from the capture object, failing on an invariant violation in the
captured data (no status code was ever written). -/
def getProxyResponse (w : ResponseWriter) :
    Except String ALBTargetGroupResponse :=
  match w.status with
  | none => Except.error "Status code not set on response"
  | some code =>
      Except.ok
        { statusCode := code
          statusDescription := toString code ++ " " ++ statusMessage code
          headers := w.headers
          body := w.body
          isBase64Encoded := false }

/-- The event-to-request conversion (core.RequestAccessorALB
.ProxyEventToHTTPRequest, source outside the adapter file) is a parameter
of the operations. -/
abbrev Conversion := ALBTargetGroupRequest → Except String HTTPRequest

/-- The stdlib resolver (net.ResolveTCPAddr "tcp" addr) is a parameter of
the operations; `none` models a resolution error. -/
abbrev Resolver := String → Option TCPAddr

/-- The adaptation step (FiberLambdaALB.adaptor): read the generic request's
body (failure: generic 500 through the writer), build the engine request,
resolve the remote address (failure: generic 500 through the writer), invoke
the framework handler, and copy the engine response out into the writer. -/
def adaptor (resolve : Resolver) (handler : Handler) (w : ResponseWriter)
    (r : HTTPRequest) : ResponseWriter :=
  match r.body with
  | Except.error _ => httpError w (statusMessage 500) 500
  | Except.ok body =>
      let req := buildEngineRequest r body
      match resolve r.remoteAddr with
      | none => httpError w (statusMessage 500) 500
      | some _ => writeEngineResponse w (handler req)

/-- FiberLambdaALB.proxyInternal: on conversion failure return the fixed
gateway-timeout event plus the logged error; otherwise run the adaptor
against a fresh capture object and extract the structured response, with the
same gateway-timeout fallback if extraction fails. The second component is
the operation's error return (none = nil). -/
def proxyInternal (resolve : Resolver) (handler : Handler)
    (reqOrErr : Except String HTTPRequest) :
    ALBTargetGroupResponse × Option String :=
  match reqOrErr with
  | Except.error e =>
      (gatewayTimeoutALB,
        some ("Could not convert proxy event to request: " ++ e))
  | Except.ok req =>
      match getProxyResponse (adaptor resolve handler newProxyResponseWriterALB req) with
      | Except.error e =>
          (gatewayTimeoutALB,
            some ("Error while generating proxy response: " ++ e))
      | Except.ok resp => (resp, none)

/-- FiberLambdaALB.Proxy: convert the event, then proxyInternal. -/
def Proxy (conv : Conversion) (resolve : Resolver) (handler : Handler)
    (event : ALBTargetGroupRequest) : ALBTargetGroupResponse × Option String :=
  proxyInternal resolve handler (conv event)

/-- A cancellation/deadline context, reduced to the one observation the
adapter makes of it: whether it is already cancelled or expired. -/
structure GoContext where
  cancelled : Bool
deriving DecidableEq, Repr

/-- Modelled from the spec: core.RequestAccessorALB.EventToRequestWithContext,
whose source is not in the adapter file — request construction honors the
supplied context: if it is already cancelled or expired, construction fails;
otherwise it is the plain conversion. -/
def eventToRequestWithContext (conv : Conversion) (ctx : GoContext)
    (event : ALBTargetGroupRequest) : Except String HTTPRequest :=
  if ctx.cancelled then Except.error "context canceled"
  else conv event

/-- FiberLambdaALB.ProxyWithContext: convert the event under the context,
then proxyInternal. -/
def ProxyWithContext (conv : Conversion) (resolve : Resolver)
    (handler : Handler) (ctx : GoContext) (event : ALBTargetGroupRequest) :
    ALBTargetGroupResponse × Option String :=
  proxyInternal resolve handler (eventToRequestWithContext conv ctx event)

/-- Two successive invocations of Proxy with the same event, conversion,
resolver and handler: the pair of their results. -/
def proxyTwice (conv : Conversion) (resolve : Resolver) (handler : Handler)
    (event : ALBTargetGroupRequest) :
    (ALBTargetGroupResponse × Option String) ×
      (ALBTargetGroupResponse × Option String) :=
  (Proxy conv resolve handler event, Proxy conv resolve handler event)

/-- Lifecycle events of the pooled low-level request object
(fasthttp.AcquireRequest / fasthttp.ReleaseRequest). -/
inductive PoolEvent where
  | acquire
  | release
deriving DecidableEq, BEq, Repr

/-- The adaptation step instrumented with the pooled object's lifecycle:
AcquireRequest runs at entry and the deferred ReleaseRequest runs when the
step returns, on every exit path (body-read failure, address-resolution
failure, successful handler invocation). The second component is the writer
state, identical to `adaptor`. -/
def adaptorTrace (resolve : Resolver) (handler : Handler) (w : ResponseWriter)
    (r : HTTPRequest) : List PoolEvent × ResponseWriter :=
  match r.body with
  | Except.error _ =>
      ([PoolEvent.acquire, PoolEvent.release],
        httpError w (statusMessage 500) 500)
  | Except.ok body =>
      let req := buildEngineRequest r body
      match resolve r.remoteAddr with
      | none =>
          ([PoolEvent.acquire, PoolEvent.release],
            httpError w (statusMessage 500) 500)
      | some _ =>
          ([PoolEvent.acquire, PoolEvent.release],
            writeEngineResponse w (handler req))

/-- A handler that echoes the request body with status 200. -/
def echoHandler : Handler :=
  fun req => { statusCode := 200, headers := [], body := req.body }

/-- A sample resolver for concrete instantiations: resolves one well-formed
address and fails on everything else (in particular on the empty string). -/
def resolveModel (s : String) : Option TCPAddr :=
  if s = "127.0.0.1:80" then some { ip := "127.0.0.1", port := 80 } else none

/-- A sample inbound event for concrete instantiations. -/
def sampleEvent : ALBTargetGroupRequest :=
  { httpMethod := "GET"
    path := "/"
    queryStringParameters := []
    headers := []
    multiValueHeaders := []
    body := "hello"
    isBase64Encoded := false }

/-- A sample generic request with a readable body and resolvable address. -/
def sampleRequest : HTTPRequest :=
  { method := "GET"
    requestURI := "/"
    host := "example.com"
    header := [("X-Custom", ["a", "b"]), ("User-Agent", ["ua1", "ua2"])]
    remoteAddr := "127.0.0.1:80"
    body := Except.ok "hello" }

/-- A sample generic request whose remote address does not resolve. -/
def badAddrRequest : HTTPRequest :=
  { method := "GET"
    requestURI := "/"
    host := "example.com"
    header := []
    remoteAddr := ""
    body := Except.ok "x" }

/-- A sample generic request whose body reader fails. -/
def badBodyRequest : HTTPRequest :=
  { method := "GET"
    requestURI := "/"
    host := "example.com"
    header := []
    remoteAddr := "127.0.0.1:80"
    body := Except.error "read failed" }

/-- All values the generic request's header map supplies for name `k`,
in order (the concatenation of the value lists of the entries named `k`). -/
def suppliedVals (entries : List (String × List String)) (k : String) :
    List String :=
  ((entries.filter (fun p => p.1 = k)).map (fun p => p.2)).flatten

theorem getVals_append (l1 l2 : List (String × String)) (k : String) :
    getVals (l1 ++ l2) k = getVals l1 k ++ getVals l2 k := by
  simp [getVals, List.filter_append]

theorem getVals_filter_ne (hs : List (String × String)) (k : String) :
    getVals (hs.filter (fun p => p.1 ≠ k)) k = [] := by
  induction hs with
  | nil => rfl
  | cons p t ih =>
      by_cases h : p.1 = k
      · simp [getVals, List.filter_cons, h]
      · simp [getVals, List.filter_cons, h]

theorem getVals_headerSet_self (hs : List (String × String)) (k v : String) :
    getVals (headerSet hs k v) k = [v] := by
  unfold headerSet
  rw [getVals_append, getVals_filter_ne]
  simp [getVals]

theorem getVals_headerSet_ne (hs : List (String × String)) (k k0 v : String)
    (h : k ≠ k0) : getVals (headerSet hs k0 v) k = getVals hs k := by
  unfold headerSet
  rw [getVals_append]
  have h1 : getVals [(k0, v)] k = [] := by simp [getVals, Ne.symm h]
  have h2 : getVals (hs.filter (fun p => p.1 ≠ k0)) k = getVals hs k := by
    unfold getVals
    rw [List.filter_filter]
    have hcong : ∀ a ∈ hs,
        (decide (a.1 = k) && decide (a.1 ≠ k0)) = decide (a.1 = k) := by
      intro a _
      by_cases ha : a.1 = k
      · have : a.1 ≠ k0 := by rw [ha]; exact h
        simp [ha, this, h]
      · simp [ha]
    rw [List.filter_congr hcong]
  rw [h1, h2, List.append_nil]

theorem getVals_headerAdd_self (hs : List (String × String)) (k v : String) :
    getVals (headerAdd hs k v) k = getVals hs k ++ [v] := by
  unfold headerAdd
  rw [getVals_append]
  simp [getVals]

theorem getVals_headerAdd_ne (hs : List (String × String)) (k k0 v : String)
    (h : k ≠ k0) : getVals (headerAdd hs k0 v) k = getVals hs k := by
  unfold headerAdd
  rw [getVals_append]
  simp [getVals, Ne.symm h]

theorem getVals_addValues_self_override (k : String) (hk : k ∈ overrideSet)
    (vs : List String) :
    ∀ hs, getVals (addValues hs k vs) k
      = (vs.getLast?).elim (getVals hs k) (fun v => [v]) := by
  induction vs with
  | nil => intro hs; rfl
  | cons v rest ih =>
      intro hs
      rw [addValues, if_pos hk, ih (headerSet hs k v),
        getVals_headerSet_self]
      cases rest with
      | nil => rfl
      | cons u t => rw [List.getLast?_cons_cons]; rfl

theorem getVals_addValues_self_add (k : String) (hk : k ∉ overrideSet)
    (vs : List String) :
    ∀ hs, getVals (addValues hs k vs) k = getVals hs k ++ vs := by
  induction vs with
  | nil => intro hs; simp [addValues]
  | cons v rest ih =>
      intro hs
      rw [addValues, if_neg hk, ih (headerAdd hs k v),
        getVals_headerAdd_self, List.append_assoc, List.singleton_append]

theorem getVals_addValues_ne (k k0 : String) (h : k ≠ k0) (vs : List String) :
    ∀ hs, getVals (addValues hs k0 vs) k = getVals hs k := by
  induction vs with
  | nil => intro hs; rfl
  | cons v rest ih =>
      intro hs
      by_cases hk : k0 ∈ overrideSet
      · rw [addValues, if_pos hk, ih (headerSet hs k0 v),
          getVals_headerSet_ne hs k k0 v h]
      · rw [addValues, if_neg hk, ih (headerAdd hs k0 v),
          getVals_headerAdd_ne hs k k0 v h]

theorem getVals_copyHeaders_override (k : String) (hk : k ∈ overrideSet)
    (entries : List (String × List String)) :
    ∀ hs, getVals (copyHeaders hs entries) k
      = (suppliedVals entries k).getLast?.elim (getVals hs k) (fun v => [v]) := by
  induction entries with
  | nil => intro hs; rfl
  | cons e rest ih =>
      intro hs
      obtain ⟨k0, vs⟩ := e
      by_cases hkk : k0 = k
      · subst hkk
        rw [copyHeaders, ih (addValues hs k0 vs),
          getVals_addValues_self_override k0 hk vs hs]
        have hsup : suppliedVals ((k0, vs) :: rest) k0
            = vs ++ suppliedVals rest k0 := by
          simp [suppliedVals, List.filter_cons]
        rw [hsup, List.getLast?_append]
        cases hr : (suppliedVals rest k0).getLast? with
        | none =>
            have : suppliedVals rest k0 = [] := by
              cases hx : suppliedVals rest k0 with
              | nil => rfl
              | cons a t => rw [hx] at hr; simp [List.getLast?_eq_none_iff] at hr
            simp [this]
        | some u => simp [hr]
      · have hne : k ≠ k0 := fun he => hkk he.symm
        rw [copyHeaders, ih (addValues hs k0 vs),
          getVals_addValues_ne k k0 hne vs hs]
        have hsup : suppliedVals ((k0, vs) :: rest) k
            = suppliedVals rest k := by
          simp [suppliedVals, List.filter_cons, hkk]
        rw [hsup]

theorem getVals_copyHeaders_add (k : String) (hk : k ∉ overrideSet)
    (entries : List (String × List String)) :
    ∀ hs, getVals (copyHeaders hs entries) k
      = getVals hs k ++ suppliedVals entries k := by
  induction entries with
  | nil => intro hs; simp [copyHeaders, suppliedVals]
  | cons e rest ih =>
      intro hs
      obtain ⟨k0, vs⟩ := e
      by_cases hkk : k0 = k
      · subst hkk
        rw [copyHeaders, ih (addValues hs k0 vs),
          getVals_addValues_self_add k0 hk vs hs]
        have hsup : suppliedVals ((k0, vs) :: rest) k0
            = vs ++ suppliedVals rest k0 := by
          simp [suppliedVals, List.filter_cons]
        rw [hsup, List.append_assoc]
      · have hne : k ≠ k0 := fun he => hkk he.symm
        rw [copyHeaders, ih (addValues hs k0 vs),
          getVals_addValues_ne k k0 hne vs hs]
        have hsup : suppliedVals ((k0, vs) :: rest) k
            = suppliedVals rest k := by
          simp [suppliedVals, List.filter_cons, hkk]
        rw [hsup]

/-- C2: when a generic request's headers are copied into the engine request,
every name in the fixed override set (Host, Content-Type, User-Agent,
Content-Length, Connection) keeps only the last supplied value, however many
were supplied, while every other name keeps all supplied values in order. -/
theorem c2_header_override_rule (r : HTTPRequest) (body k : String) :
    (k ∈ overrideSet → ∀ v, (suppliedVals r.header k).getLast? = some v →
      getVals (buildEngineRequest r body).headers k = [v]) ∧
    (k ∉ overrideSet →
      getVals (buildEngineRequest r body).headers k = suppliedVals r.header k) := by
  constructor
  · intro hk v hv
    unfold buildEngineRequest
    rw [getVals_copyHeaders_override k hk r.header, hv]
    rfl
  · intro hk
    unfold buildEngineRequest
    rw [getVals_copyHeaders_add k hk r.header]
    have h1 : k ≠ "Host" := by
      intro he; exact hk (by rw [he]; decide)
    have h2 : k ≠ "Content-Length" := by
      intro he; exact hk (by rw [he]; decide)
    rw [getVals_headerSet_ne _ _ _ _ h1, getVals_headerSet_ne _ _ _ _ h2]
    simp [getVals]

/-- C6: two-run determinism — invoking Proxy twice with the same event,
conversion, resolver and (deterministic) handler yields identical outbound
events: the adapter threads no state from one call into the next. -/
theorem c6_two_run_determinism (conv : Conversion) (resolve : Resolver)
    (handler : Handler) (event : ALBTargetGroupRequest) :
    (proxyTwice conv resolve handler event).1
      = (proxyTwice conv resolve handler event).2 := rfl

/-- C7: on every execution of the adaptation step the pooled low-level
request is acquired once at entry and released exactly once at exit, on
every exit path; the instrumented step computes the same writer state as
the uninstrumented one. -/
theorem c7_pool_acquire_release (resolve : Resolver) (handler : Handler)
    (w : ResponseWriter) (r : HTTPRequest) :
    (adaptorTrace resolve handler w r).1
        = [PoolEvent.acquire, PoolEvent.release] ∧
    (adaptorTrace resolve handler w r).1.count PoolEvent.release = 1 ∧
    (adaptorTrace resolve handler w r).2 = adaptor resolve handler w r := by
  have h1 : (adaptorTrace resolve handler w r).1
      = [PoolEvent.acquire, PoolEvent.release] := by
    unfold adaptorTrace
    cases r.body with
    | error e => rfl
    | ok body => cases resolve r.remoteAddr <;> rfl
  have h2 : (adaptorTrace resolve handler w r).2
      = adaptor resolve handler w r := by
    unfold adaptorTrace adaptor
    cases r.body with
    | error e => rfl
    | ok body => cases resolve r.remoteAddr <;> rfl
  exact ⟨h1, by rw [h1]; rfl, h2⟩

/-- C1: whenever event-to-request conversion fails (for Proxy or
ProxyWithContext) the operation returns the fixed gateway-timeout event with
a non-nil logged error and the handler is never invoked (the result does not
depend on it); whenever response capture cannot produce a structured event,
the operation likewise returns the gateway-timeout event with a non-nil
logged error. -/
theorem c1_failure_fallbacks (conv : Conversion) (resolve : Resolver)
    (h1 h2 : Handler) (ctx : GoContext) (ev : ALBTargetGroupRequest) :
    (∀ e, conv ev = Except.error e →
      Proxy conv resolve h1 ev
          = (gatewayTimeoutALB,
              some ("Could not convert proxy event to request: " ++ e)) ∧
      Proxy conv resolve h1 ev = Proxy conv resolve h2 ev) ∧
    (∀ e, eventToRequestWithContext conv ctx ev = Except.error e →
      ProxyWithContext conv resolve h1 ctx ev
          = (gatewayTimeoutALB,
              some ("Could not convert proxy event to request: " ++ e)) ∧
      ProxyWithContext conv resolve h1 ctx ev
          = ProxyWithContext conv resolve h2 ctx ev) ∧
    (∀ r e, conv ev = Except.ok r →
      getProxyResponse (adaptor resolve h1 newProxyResponseWriterALB r)
          = Except.error e →
      Proxy conv resolve h1 ev
          = (gatewayTimeoutALB,
              some ("Error while generating proxy response: " ++ e))) := by
  refine ⟨fun e he => ?_, fun e he => ?_, fun r e hr hg => ?_⟩
  · constructor <;> simp [Proxy, proxyInternal, he]
  · constructor <;> simp [ProxyWithContext, proxyInternal, he]
  · simp [Proxy, proxyInternal, hr, hg]

/-- C3: when the generic request's remote address does not resolve, the
adaptation step writes a generic 500 through the low-level response-writer
path (http.Error), the operation's outbound event has status 500 and not
504, and the framework handler is never invoked (the result does not depend
on it). -/
theorem c3_unresolvable_remote_address (conv : Conversion)
    (resolve : Resolver) (h1 h2 : Handler) (ev : ALBTargetGroupRequest)
    (r : HTTPRequest) (hc : conv ev = Except.ok r)
    (hr : resolve r.remoteAddr = none) :
    adaptor resolve h1 newProxyResponseWriterALB r
        = httpError newProxyResponseWriterALB (statusMessage 500) 500 ∧
    (Proxy conv resolve h1 ev).1.statusCode = 500 ∧
    (Proxy conv resolve h1 ev).1.statusCode ≠ 504 ∧
    Proxy conv resolve h1 ev = Proxy conv resolve h2 ev := by
  have hw : ∀ h : Handler, adaptor resolve h newProxyResponseWriterALB r
      = httpError newProxyResponseWriterALB (statusMessage 500) 500 := by
    intro h
    unfold adaptor
    cases hb : r.body with
    | error e => rfl
    | ok body => rw [hr]
  have hp : ∀ h : Handler, Proxy conv resolve h ev
      = ({ statusCode := 500
           statusDescription := "500 Internal Server Error"
           headers := [("Content-Type", "text/plain; charset=utf-8"),
                       ("X-Content-Type-Options", "nosniff")]
           body := "Internal Server Error\n"
           isBase64Encoded := false }, none) := by
    intro h
    simp only [Proxy, proxyInternal, hc, hw h]
    rfl
  exact ⟨hw h1, by rw [hp h1], by rw [hp h1]; decide, by rw [hp h1, hp h2]⟩

/-- C4: for a valid event whose generic request has a non-empty readable
body and a resolvable remote address, the engine request handed to the
framework handler carries the generic request's method, request URI and
body bytes unchanged, and the adaptation step invokes the handler on
exactly that engine request. -/
theorem c4_method_uri_body_preserved (conv : Conversion) (resolve : Resolver)
    (handler : Handler) (ev : ALBTargetGroupRequest) (r : HTTPRequest)
    (b : String) (a : TCPAddr) (hc : conv ev = Except.ok r)
    (hb : r.body = Except.ok b) (hne : b ≠ "")
    (ha : resolve r.remoteAddr = some a) :
    (buildEngineRequest r b).method = r.method ∧
    (buildEngineRequest r b).requestURI = r.requestURI ∧
    (buildEngineRequest r b).body = b ∧
    adaptor resolve handler newProxyResponseWriterALB r
      = writeEngineResponse newProxyResponseWriterALB
          (handler (buildEngineRequest r b)) := by
  refine ⟨rfl, rfl, rfl, ?_⟩
  unfold adaptor
  rw [hb, ha]

/-- C5: with a handler that echoes the request body at status 200, Proxy on
an event whose generic request carries body "hello" and a resolvable remote
address yields an outbound event with status 200 and body "hello" and a nil
error. -/
theorem c5_echo_roundtrip (conv : Conversion) (resolve : Resolver)
    (ev : ALBTargetGroupRequest) (r : HTTPRequest) (a : TCPAddr)
    (hc : conv ev = Except.ok r) (hb : r.body = Except.ok "hello")
    (ha : resolve r.remoteAddr = some a) :
    (Proxy conv resolve echoHandler ev).1.statusCode = 200 ∧
    (Proxy conv resolve echoHandler ev).1.body = "hello" ∧
    (Proxy conv resolve echoHandler ev).2 = none := by
  have hw : adaptor resolve echoHandler newProxyResponseWriterALB r
      = writeEngineResponse newProxyResponseWriterALB
          (echoHandler (buildEngineRequest r "hello")) := by
    unfold adaptor
    rw [hb, ha]
  simp only [Proxy, proxyInternal, hc, hw]
  exact ⟨rfl, rfl, rfl⟩

/-- C8: ProxyWithContext under a context that is already cancelled or
expired fails request construction and returns the fixed gateway-timeout
event with a non-nil error, identically to the Proxy conversion-failure
path. -/
theorem c8_cancelled_context (conv : Conversion) (resolve : Resolver)
    (handler : Handler) (ctx : GoContext) (ev : ALBTargetGroupRequest)
    (hcan : ctx.cancelled = true) :
    ProxyWithContext conv resolve handler ctx ev
        = (gatewayTimeoutALB,
            some ("Could not convert proxy event to request: "
              ++ "context canceled")) ∧
    ProxyWithContext conv resolve handler ctx ev
        = Proxy (fun _ => Except.error "context canceled") resolve handler ev := by
  constructor <;>
    simp [ProxyWithContext, Proxy, proxyInternal, eventToRequestWithContext,
      hcan]

/-- C9: when the adaptation step takes the low-level 500 error path (body
read failure or remote-address resolution failure), Proxy still returns a
structured outbound event carrying the written 500 status, and the
operation's error return is nil. -/
theorem c9_low_level_error_500_nil_error (conv : Conversion)
    (resolve : Resolver) (handler : Handler) (ev : ALBTargetGroupRequest)
    (r : HTTPRequest) (hc : conv ev = Except.ok r)
    (hfail : (∃ e, r.body = Except.error e) ∨ resolve r.remoteAddr = none) :
    (Proxy conv resolve handler ev).1.statusCode = 500 ∧
    (Proxy conv resolve handler ev).2 = none := by
  have hw : adaptor resolve handler newProxyResponseWriterALB r
      = httpError newProxyResponseWriterALB (statusMessage 500) 500 := by
    rcases hfail with ⟨e, he⟩ | hr
    · unfold adaptor; rw [he]
    · unfold adaptor
      cases hb : r.body with
      | error e => rfl
      | ok body => rw [hr]
  simp only [Proxy, proxyInternal, hc, hw]
  exact ⟨rfl, rfl⟩

/-- C10: when the generic request's body reader fails, the adaptation step
writes a generic 500 through the low-level response-writer path and returns
without invoking the framework handler (the result does not depend on it);
the operation does not take the structured gateway-timeout fallback. -/
theorem c10_body_read_failure (conv : Conversion) (resolve : Resolver)
    (h1 h2 : Handler) (ev : ALBTargetGroupRequest) (r : HTTPRequest)
    (e : String) (hc : conv ev = Except.ok r)
    (hb : r.body = Except.error e) :
    adaptor resolve h1 newProxyResponseWriterALB r
        = httpError newProxyResponseWriterALB (statusMessage 500) 500 ∧
    (Proxy conv resolve h1 ev).1.statusCode = 500 ∧
    (Proxy conv resolve h1 ev).2 = none ∧
    (Proxy conv resolve h1 ev).1 ≠ gatewayTimeoutALB ∧
    Proxy conv resolve h1 ev = Proxy conv resolve h2 ev := by
  have hw : ∀ h : Handler, adaptor resolve h newProxyResponseWriterALB r
      = httpError newProxyResponseWriterALB (statusMessage 500) 500 := by
    intro h
    unfold adaptor
    rw [hb]
  have hp : ∀ h : Handler, Proxy conv resolve h ev
      = ({ statusCode := 500
           statusDescription := "500 Internal Server Error"
           headers := [("Content-Type", "text/plain; charset=utf-8"),
                       ("X-Content-Type-Options", "nosniff")]
           body := "Internal Server Error\n"
           isBase64Encoded := false }, none) := by
    intro h
    simp only [Proxy, proxyInternal, hc, hw h]
    rfl
  refine ⟨hw h1, by rw [hp h1], by rw [hp h1], ?_, by rw [hp h1, hp h2]⟩
  rw [hp h1]
  decide

/-- C3 witness: a concrete event whose generic request has the empty remote
address, which the sample resolver rejects; the outbound event has status
500. -/
theorem c3_witness :
    (Proxy (fun _ => Except.ok badAddrRequest) resolveModel echoHandler
        sampleEvent).1.statusCode = 500 :=
  (c3_unresolvable_remote_address (fun _ => Except.ok badAddrRequest)
      resolveModel echoHandler echoHandler sampleEvent badAddrRequest rfl
      rfl).2.1

/-- C4 witness: the sample generic request's body "hello" survives into the
engine request byte-for-byte. -/
theorem c4_witness :
    (buildEngineRequest sampleRequest "hello").body = "hello" :=
  (c4_method_uri_body_preserved (fun _ => Except.ok sampleRequest)
      resolveModel echoHandler sampleEvent sampleRequest "hello"
      { ip := "127.0.0.1", port := 80 } rfl rfl (by decide) rfl).2.2.1

/-- C5 witness: Proxy on the sample event with the echo handler yields body
"hello". -/
theorem c5_witness :
    (Proxy (fun _ => Except.ok sampleRequest) resolveModel echoHandler
        sampleEvent).1.body = "hello" :=
  (c5_echo_roundtrip (fun _ => Except.ok sampleRequest) resolveModel
      sampleEvent sampleRequest { ip := "127.0.0.1", port := 80 } rfl rfl
      rfl).2.1

/-- C8 witness: a concrete already-cancelled context yields the fixed
gateway-timeout event plus the logged conversion error. -/
theorem c8_witness :
    ProxyWithContext (fun _ => Except.ok sampleRequest) resolveModel
        echoHandler { cancelled := true } sampleEvent
      = (gatewayTimeoutALB,
          some ("Could not convert proxy event to request: "
            ++ "context canceled")) :=
  (c8_cancelled_context (fun _ => Except.ok sampleRequest) resolveModel
      echoHandler { cancelled := true } sampleEvent rfl).1

/-- C9 witness: a concrete request whose body reader fails still yields a
nil error return. -/
theorem c9_witness :
    (Proxy (fun _ => Except.ok badBodyRequest) resolveModel echoHandler
        sampleEvent).2 = none :=
  (c9_low_level_error_500_nil_error (fun _ => Except.ok badBodyRequest)
      resolveModel echoHandler sampleEvent badBodyRequest rfl
      (Or.inl ⟨"read failed", rfl⟩)).2

/-- C10 witness: a concrete request whose body reader fails yields outbound
status 500. -/
theorem c10_witness :
    (Proxy (fun _ => Except.ok badBodyRequest) resolveModel echoHandler
        sampleEvent).1.statusCode = 500 :=
  (c10_body_read_failure (fun _ => Except.ok badBodyRequest) resolveModel
      echoHandler echoHandler sampleEvent badBodyRequest "read failed" rfl
      rfl).2.1

end FiberALB
